import Mathlib

/-!
Shallow embedding of the formula engine of the Personal Finance Calculator
(`personalfinancecalculator.py`).  Monetary quantities and rates are modelled
over `ℚ` (exact arithmetic in place of Python floats); loan and savings terms
are whole numbers of years, so the month counts `years * 12` are natural
numbers and the powers in the closed-form formulas are ordinary
natural-number powers.  The interactive wrappers print an error message and
return early on degenerate parameters; those early returns are modelled as
`Except` errors, and the values the wrappers compute and print are gathered
into result structures.
-/

/-- Error outcomes of the calculators: the early `return` branches of
`loan_payment_calculator` (lines 112-114 and 119-121) and of
`savings_goal_calculator` (lines 377-379 and 393-395). -/
inductive FinError where
  | invalidTerm : FinError
  | degenerateParameters : FinError
  deriving DecidableEq

/-- Values computed and displayed by `loan_payment_calculator`. -/
structure LoanPaymentResult where
  monthly_payment : ℚ
  total_interest : ℚ
  total_payment : ℚ
  deriving DecidableEq

/-- Embedding of `loan_payment_calculator` (lines 81-135): converts the
annual percentage rate to a monthly rate, the term in years to a number of
monthly payments, and applies the standard amortization formula
`M = P * [r(1+r)^n] / [(1+r)^n - 1]`, with the simple division `M = P / n`
when the rate is zero. -/
def loan_payment_calculator (principal annual_rate : ℚ) (years : ℕ) :
    Except FinError LoanPaymentResult :=
  let monthly_rate : ℚ := annual_rate / 100 / 12
  let num_payments : ℕ := years * 12
  if monthly_rate = 0 then
    if num_payments = 0 then
      Except.error FinError.invalidTerm
    else
      let monthly_payment := principal / (num_payments : ℚ)
      let total_payment := monthly_payment * (num_payments : ℚ)
      let total_interest := total_payment - principal
      Except.ok ⟨monthly_payment, total_interest, total_payment⟩
  else
    let denominator := (1 + monthly_rate) ^ num_payments - 1
    if denominator = 0 then
      Except.error FinError.degenerateParameters
    else
      let monthly_payment :=
        principal * (monthly_rate * (1 + monthly_rate) ^ num_payments) / denominator
      let total_payment := monthly_payment * (num_payments : ℚ)
      let total_interest := total_payment - principal
      Except.ok ⟨monthly_payment, total_interest, total_payment⟩

/-- Values computed and displayed by `compound_interest_calculator`. -/
structure CompoundInterestResult where
  final_amount : ℚ
  interest_earned : ℚ
  deriving DecidableEq

/-- The compounding frequencies offered by the menu of
`compound_interest_calculator`: the values of `frequency_options`
(line 177). -/
def frequency_values : List ℕ := [1, 2, 4, 12, 365]

/-- Embedding of `compound_interest_calculator` (lines 138-207) after the
frequency has been selected from the menu: applies
`A = P (1 + r/n)^(n t)`. -/
def compound_interest_calculator (principal annual_rate : ℚ) (years : ℕ)
    (compound_frequency : ℕ) : CompoundInterestResult :=
  let rate : ℚ := annual_rate / 100
  let final_amount :=
    principal * (1 + rate / (compound_frequency : ℚ)) ^ (compound_frequency * years)
  let interest_earned := final_amount - principal
  ⟨final_amount, interest_earned⟩

/-- Values computed and displayed by `simple_interest_calculator`. -/
structure SimpleInterestResult where
  interest : ℚ
  final_amount : ℚ
  deriving DecidableEq

/-- Embedding of `simple_interest_calculator` (lines 210-247):
`I = P * r * t`. -/
def simple_interest_calculator (principal annual_rate : ℚ) (years : ℕ) :
    SimpleInterestResult :=
  let rate : ℚ := annual_rate / 100
  let interest := principal * rate * (years : ℚ)
  let final_amount := principal + interest
  ⟨interest, final_amount⟩

/-- Values computed and displayed by `budget_tracker`. -/
structure BudgetSummaryResult where
  total_income : ℚ
  total_expenses : ℚ
  net_income : ℚ
  saving_rate : ℚ
  deriving DecidableEq

/-- Embedding of `budget_tracker` (lines 250-324) once both ledgers have
been collected: the running totals accumulated during entry are the sums of
the entered amounts, and the savings rate guards against a zero total
income. -/
def budget_tracker (income_items expense_items : List (String × ℚ)) :
    BudgetSummaryResult :=
  let total_income := (income_items.map Prod.snd).sum
  let total_expenses := (expense_items.map Prod.snd).sum
  let net_income := total_income - total_expenses
  let saving_rate := if total_income > 0 then net_income / total_income * 100 else 0
  ⟨total_income, total_expenses, net_income, saving_rate⟩

/-- Values computed and displayed by `savings_goal_calculator`.  The
`already_met` flag records the early congratulation branch (lines
363-366); in that branch no further quantities are computed, so the
remaining fields are zero. -/
structure SavingsGoalResult where
  already_met : Bool
  monthly_savings : ℚ
  total_contributions : ℚ
  total_growth : ℚ
  deriving DecidableEq

/-- Embedding of `savings_goal_calculator` (lines 327-427): short-circuits
when the goal is already met, otherwise computes the required monthly
savings (simple division at zero return, future-value-of-annuity formula
otherwise, with a zero answer when the grown current savings already cover
the goal), then derives total contributions and growth. -/
def savings_goal_calculator (goal_amount current_savings : ℚ) (time_years : ℕ)
    (annual_return : ℚ) : Except FinError SavingsGoalResult :=
  if current_savings ≥ goal_amount then
    Except.ok ⟨true, 0, 0, 0⟩
  else
    let amount_needed := goal_amount - current_savings
    let monthly_return : ℚ := annual_return / 100 / 12
    let months : ℕ := time_years * 12
    let monthly_savings_except : Except FinError ℚ :=
      if monthly_return = 0 then
        if months = 0 then
          Except.error FinError.invalidTerm
        else
          Except.ok (amount_needed / (months : ℚ))
      else
        let future_value_current_savings :=
          current_savings * (1 + monthly_return) ^ months
        let remaining_needed_after_growth :=
          goal_amount - future_value_current_savings
        if remaining_needed_after_growth ≤ 0 then
          Except.ok 0
        else
          let annuity_factor := ((1 + monthly_return) ^ months - 1) / monthly_return
          if annuity_factor = 0 then
            Except.error FinError.degenerateParameters
          else
            Except.ok (remaining_needed_after_growth / annuity_factor)
    match monthly_savings_except with
    | Except.error e => Except.error e
    | Except.ok monthly_savings =>
        let total_contributions := monthly_savings * (months : ℚ)
        let total_growth := goal_amount - current_savings - total_contributions
        Except.ok ⟨false, monthly_savings, total_contributions, total_growth⟩

/-- C4: for every positive goal and term, whenever the current savings
already meet or exceed the goal, `savings_goal_calculator` short-circuits:
it returns the already-met result with zero required monthly savings and
performs none of the later computation steps. -/
theorem savings_goal_already_met (goal_amount current_savings : ℚ) (time_years : ℕ)
    (annual_return : ℚ) (hg : 0 < goal_amount) (hy : 0 < time_years)
    (h : current_savings ≥ goal_amount) :
    savings_goal_calculator goal_amount current_savings time_years annual_return =
      Except.ok ⟨true, 0, 0, 0⟩ := by
  simp [savings_goal_calculator, h]

/-- Witness for `savings_goal_already_met` at the spec's example inputs
(goal 5000, current savings 10000, 2 years, 5 percent). -/
theorem savings_goal_already_met_witness :
    savings_goal_calculator 5000 10000 2 5 = Except.ok ⟨true, 0, 0, 0⟩ :=
  savings_goal_already_met 5000 10000 2 5 (by norm_num) (by norm_num) (by norm_num)

/-- C6: with a zero annual return and the goal not yet met,
`savings_goal_calculator` returns the simple division
`monthly_savings = (goal - current) / months` with
`total_contributions = monthly_savings * months`. -/
theorem savings_goal_zero_return (goal_amount current_savings : ℚ) (time_years : ℕ)
    (hg : 0 < goal_amount) (hy : 0 < time_years) (hc : current_savings < goal_amount) :
    ∃ r, savings_goal_calculator goal_amount current_savings time_years 0 =
        Except.ok r ∧
      r.monthly_savings = (goal_amount - current_savings) / ((time_years : ℚ) * 12) ∧
      r.total_contributions = r.monthly_savings * ((time_years : ℚ) * 12) := by
  have hns : ¬ current_savings ≥ goal_amount := not_le.mpr hc
  have hm : time_years * 12 ≠ 0 := by omega
  refine ⟨⟨false, (goal_amount - current_savings) / ((time_years : ℚ) * 12),
      (goal_amount - current_savings) / ((time_years : ℚ) * 12) * ((time_years : ℚ) * 12),
      goal_amount - current_savings -
        (goal_amount - current_savings) / ((time_years : ℚ) * 12) *
          ((time_years : ℚ) * 12)⟩, ?_, rfl, rfl⟩
  simp only [savings_goal_calculator, hns, if_false, hm, ite_false]
  norm_num [hm]

/-- Witness for `savings_goal_zero_return` at the spec's example inputs
(goal 10000, no current savings, 2 years, zero return): the required
monthly savings is 10000/24. -/
theorem savings_goal_zero_return_witness :
    ∃ r, savings_goal_calculator 10000 0 2 0 = Except.ok r ∧
      r.monthly_savings = (10000 - 0) / ((2 : ℚ) * 12) ∧
      r.total_contributions = r.monthly_savings * ((2 : ℚ) * 12) :=
  savings_goal_zero_return 10000 0 2 (by norm_num) (by norm_num) (by norm_num)

/-- C7: with a zero annual rate and a positive term, the loan calculator
takes the simple-division branch (not the invalid-term error): the monthly
payment is `principal / (years * 12)` and the total interest is zero. -/
theorem loan_zero_rate (principal : ℚ) (years : ℕ)
    (hp : 0 < principal) (hy : 0 < years) :
    loan_payment_calculator principal 0 years =
      Except.ok ⟨principal / ((years : ℚ) * 12), 0, principal⟩ := by
  have hm : years * 12 ≠ 0 := by omega
  have hyq : ((years : ℚ)) ≠ 0 := Nat.cast_ne_zero.mpr (by omega)
  have hq : ((years : ℚ) * 12) ≠ 0 := mul_ne_zero hyq (by norm_num)
  simp only [loan_payment_calculator]
  norm_num [hm]
  rw [div_mul_cancel₀ _ hq]
  norm_num

/-- Witness for `loan_zero_rate` at principal 1200 over one year. -/
theorem loan_zero_rate_witness :
    loan_payment_calculator 1200 0 1 = Except.ok ⟨1200 / ((1 : ℚ) * 12), 0, 1200⟩ :=
  loan_zero_rate 1200 1 (by norm_num) (by norm_num)

/-- C8: the budget summary returns the net income as total income minus
total expenses, and the savings rate is `net / total * 100` when the total
income is positive and exactly zero otherwise (so an empty income list
never divides by zero). -/
theorem budget_summary_spec (income_items expense_items : List (String × ℚ)) :
    (budget_tracker income_items expense_items).net_income =
        (income_items.map Prod.snd).sum - (expense_items.map Prod.snd).sum ∧
    (0 < (income_items.map Prod.snd).sum →
      (budget_tracker income_items expense_items).saving_rate =
        (budget_tracker income_items expense_items).net_income /
          (income_items.map Prod.snd).sum * 100) ∧
    (¬ 0 < (income_items.map Prod.snd).sum →
      (budget_tracker income_items expense_items).saving_rate = 0) := by
  refine ⟨rfl, ?_, ?_⟩ <;> intro h <;> simp [budget_tracker, h]

/-- Witness for `budget_summary_spec` at an empty income ledger with one
expense: the savings rate is zero. -/
theorem budget_summary_spec_witness :
    (budget_tracker [] [("Rent", 1000)]).saving_rate = 0 :=
  (budget_summary_spec [] [("Rent", 1000)]).2.2 (by norm_num)

/-- C5: with a nonzero monthly return and the goal not yet met, when the
grown current savings alone cover the goal
(`goal - current * (1 + monthlyReturn) ^ months ≤ 0`), the required
monthly savings returned is zero. -/
theorem savings_goal_growth_sufficient (goal_amount current_savings : ℚ)
    (time_years : ℕ) (annual_return : ℚ) (hg : 0 < goal_amount)
    (hy : 0 < time_years) (hc : current_savings < goal_amount)
    (hmr : annual_return / 100 / 12 ≠ 0)
    (hrem : goal_amount -
        current_savings * (1 + annual_return / 100 / 12) ^ (time_years * 12) ≤ 0) :
    ∃ r, savings_goal_calculator goal_amount current_savings time_years annual_return =
        Except.ok r ∧ r.monthly_savings = 0 := by
  have hns : ¬ current_savings ≥ goal_amount := not_le.mpr hc
  refine ⟨⟨false, 0, 0, goal_amount - current_savings⟩, ?_, rfl⟩
  simp [savings_goal_calculator, hns, hmr, hrem]

/-- Witness for `savings_goal_growth_sufficient`: goal 10, current savings
5, one year at a 1200 percent annual return (monthly return 1), where the
current savings grow to 5 * 2^12, far past the goal. -/
theorem savings_goal_growth_sufficient_witness :
    ∃ r, savings_goal_calculator 10 5 1 1200 = Except.ok r ∧
      r.monthly_savings = 0 :=
  savings_goal_growth_sufficient 10 5 1 1200 (by norm_num) (by norm_num)
    (by norm_num) (by norm_num) (by norm_num)

/-- C1: with positive principal, rate and term, when the denominator
`(1 + monthlyRate) ^ numPayments - 1` is nonzero, the loan calculator
returns the amortization formula value
`principal * monthlyRate * (1 + monthlyRate) ^ numPayments / denominator`
together with `totalPayment = monthlyPayment * numPayments` and
`totalInterest = totalPayment - principal`. -/
theorem loan_payment_formula (principal annual_rate : ℚ) (years : ℕ)
    (hp : 0 < principal) (hr : 0 < annual_rate) (hy : 0 < years)
    (hden : (1 + annual_rate / 100 / 12) ^ (years * 12) - 1 ≠ 0) :
    ∃ r, loan_payment_calculator principal annual_rate years = Except.ok r ∧
      r.monthly_payment = principal * (annual_rate / 100 / 12) *
          (1 + annual_rate / 100 / 12) ^ (years * 12) /
          ((1 + annual_rate / 100 / 12) ^ (years * 12) - 1) ∧
      r.total_payment = r.monthly_payment * ((years * 12 : ℕ) : ℚ) ∧
      r.total_interest = r.total_payment - principal := by
  have hmr0 : annual_rate / 100 / 12 ≠ 0 := by positivity
  refine ⟨⟨principal * (annual_rate / 100 / 12 *
        (1 + annual_rate / 100 / 12) ^ (years * 12)) /
        ((1 + annual_rate / 100 / 12) ^ (years * 12) - 1),
      principal * (annual_rate / 100 / 12 *
        (1 + annual_rate / 100 / 12) ^ (years * 12)) /
        ((1 + annual_rate / 100 / 12) ^ (years * 12) - 1) * ((years * 12 : ℕ) : ℚ) -
        principal,
      principal * (annual_rate / 100 / 12 *
        (1 + annual_rate / 100 / 12) ^ (years * 12)) /
        ((1 + annual_rate / 100 / 12) ^ (years * 12) - 1) * ((years * 12 : ℕ) : ℚ)⟩,
    ?_, by ring, rfl, rfl⟩
  simp [loan_payment_calculator, hmr0, hden]

/-- Witness for `loan_payment_formula` at the spec's reference example:
principal 10000 at 5 percent over 2 years. -/
theorem loan_payment_formula_witness :
    ∃ r, loan_payment_calculator 10000 5 2 = Except.ok r ∧
      r.monthly_payment = 10000 * ((5 : ℚ) / 100 / 12) *
          (1 + (5 : ℚ) / 100 / 12) ^ (2 * 12) /
          ((1 + (5 : ℚ) / 100 / 12) ^ (2 * 12) - 1) ∧
      r.total_payment = r.monthly_payment * ((2 * 12 : ℕ) : ℚ) ∧
      r.total_interest = r.total_payment - 10000 :=
  loan_payment_formula 10000 5 2 (by norm_num) (by norm_num) (by norm_num)
    (by norm_num)

/-- Accumulation inequality behind the non-negative total interest: for a
positive rate `r`, the growth factor satisfies
`(1 + r) ^ n - 1 ≤ n * r * (1 + r) ^ n` for every number of periods. -/
theorem geom_sub_one_le (r : ℚ) (hr : 0 < r) :
    ∀ n : ℕ, (1 + r) ^ n - 1 ≤ (n : ℚ) * r * (1 + r) ^ n := by
  intro n
  induction n with
  | zero => simp
  | succ n ih =>
      have hx : (0 : ℚ) < (1 + r) ^ n := pow_pos (by linarith) n
      have h2 : (1 + r) ^ n ≤ (1 + r) ^ (n + 1) := by
        calc (1 + r) ^ n = (1 + r) ^ n * 1 := by ring
          _ ≤ (1 + r) ^ n * (1 + r) := by nlinarith
          _ = (1 + r) ^ (n + 1) := by ring
      have h3 : ((n : ℚ) + 1) * r * (1 + r) ^ n ≤
          ((n : ℚ) + 1) * r * (1 + r) ^ (n + 1) := by
        have hnn : (0 : ℚ) ≤ ((n : ℚ) + 1) * r := by positivity
        exact mul_le_mul_of_nonneg_left h2 hnn
      push_cast
      calc (1 + r) ^ (n + 1) - 1 = ((1 + r) ^ n - 1) + r * (1 + r) ^ n := by ring
        _ ≤ (n : ℚ) * r * (1 + r) ^ n + r * (1 + r) ^ n := by linarith
        _ = ((n : ℚ) + 1) * r * (1 + r) ^ n := by ring
        _ ≤ ((n : ℚ) + 1) * r * (1 + r) ^ (n + 1) := h3

/-- C3: with positive principal, rate and term, the loan calculator
succeeds and the total interest it returns is non-negative. -/
theorem loan_total_interest_nonneg (principal annual_rate : ℚ) (years : ℕ)
    (hp : 0 < principal) (hr : 0 < annual_rate) (hy : 0 < years) :
    ∃ r, loan_payment_calculator principal annual_rate years = Except.ok r ∧
      0 ≤ r.total_interest := by
  set mr := annual_rate / 100 / 12 with hmr_def
  have hmr : 0 < mr := by rw [hmr_def]; positivity
  have hx1 : (1 : ℚ) < (1 + mr) ^ (years * 12) :=
    one_lt_pow₀ (by linarith) (by omega)
  have hd : (0 : ℚ) < (1 + mr) ^ (years * 12) - 1 := by linarith
  have hdne : (1 + mr) ^ (years * 12) - 1 ≠ 0 := ne_of_gt hd
  have hmr0 : mr ≠ 0 := ne_of_gt hmr
  refine ⟨⟨principal * (mr * (1 + mr) ^ (years * 12)) /
        ((1 + mr) ^ (years * 12) - 1),
      principal * (mr * (1 + mr) ^ (years * 12)) /
        ((1 + mr) ^ (years * 12) - 1) * ((years * 12 : ℕ) : ℚ) - principal,
      principal * (mr * (1 + mr) ^ (years * 12)) /
        ((1 + mr) ^ (years * 12) - 1) * ((years * 12 : ℕ) : ℚ)⟩, ?_, ?_⟩
  · simp [loan_payment_calculator, ← hmr_def, hmr0, hdne]
  · have hb := geom_sub_one_le mr hmr (years * 12)
    rw [sub_nonneg, div_mul_eq_mul_div, le_div_iff₀ hd]
    calc principal * ((1 + mr) ^ (years * 12) - 1)
        ≤ principal * (((years * 12 : ℕ) : ℚ) * mr * (1 + mr) ^ (years * 12)) :=
          mul_le_mul_of_nonneg_left hb hp.le
      _ = principal * (mr * (1 + mr) ^ (years * 12)) * ((years * 12 : ℕ) : ℚ) := by
          ring

/-- Witness for `loan_total_interest_nonneg` at principal 10000, 5 percent,
2 years. -/
theorem loan_total_interest_nonneg_witness :
    ∃ r, loan_payment_calculator 10000 5 2 = Except.ok r ∧ 0 ≤ r.total_interest :=
  loan_total_interest_nonneg 10000 5 2 (by norm_num) (by norm_num) (by norm_num)

/-- C9: for a compounding frequency from the menu and positive principal,
rate and term, the compound interest calculator returns
`finalAmount = principal * (1 + (rate/100)/frequency) ^ (frequency * years)`
with strictly positive interest earned, and the final amount is strictly
increasing in the number of years. -/
theorem compound_interest_spec (principal annual_rate : ℚ) (years : ℕ)
    (compound_frequency : ℕ) (hp : 0 < principal) (hr : 0 < annual_rate)
    (hy : 0 < years) (hf : compound_frequency ∈ frequency_values) :
    (compound_interest_calculator principal annual_rate years
        compound_frequency).final_amount =
      principal * (1 + annual_rate / 100 / (compound_frequency : ℚ)) ^
        (compound_frequency * years) ∧
    0 < (compound_interest_calculator principal annual_rate years
        compound_frequency).interest_earned ∧
    ∀ more_years : ℕ, years < more_years →
      (compound_interest_calculator principal annual_rate years
          compound_frequency).final_amount <
        (compound_interest_calculator principal annual_rate more_years
            compound_frequency).final_amount := by
  have hcf : 0 < compound_frequency := by
    fin_cases hf <;> norm_num
  have hcfq : (0 : ℚ) < (compound_frequency : ℚ) := by exact_mod_cast hcf
  have hb : (1 : ℚ) < 1 + annual_rate / 100 / (compound_frequency : ℚ) := by
    have h0 : (0 : ℚ) < annual_rate / 100 / (compound_frequency : ℚ) := by positivity
    linarith
  refine ⟨rfl, ?_, ?_⟩
  · simp only [compound_interest_calculator]
    have hx : (1 : ℚ) < (1 + annual_rate / 100 / (compound_frequency : ℚ)) ^
        (compound_frequency * years) :=
      one_lt_pow₀ hb (Nat.mul_ne_zero (by omega) (by omega))
    nlinarith
  · intro more_years hmy
    simp only [compound_interest_calculator]
    have hexp : compound_frequency * years < compound_frequency * more_years :=
      mul_lt_mul_of_pos_left hmy hcf
    have hpow : (1 + annual_rate / 100 / (compound_frequency : ℚ)) ^
          (compound_frequency * years) <
        (1 + annual_rate / 100 / (compound_frequency : ℚ)) ^
          (compound_frequency * more_years) :=
      pow_lt_pow_right₀ hb hexp
    exact mul_lt_mul_of_pos_left hpow hp

/-- Witness for `compound_interest_spec`: principal 100 at 5 percent,
monthly compounding, comparing one year against two years. -/
theorem compound_interest_spec_witness :
    (compound_interest_calculator 100 5 1 12).final_amount =
      100 * (1 + (5 : ℚ) / 100 / 12) ^ (12 * 1) ∧
    0 < (compound_interest_calculator 100 5 1 12).interest_earned ∧
    (compound_interest_calculator 100 5 1 12).final_amount <
      (compound_interest_calculator 100 5 2 12).final_amount := by
  have h := compound_interest_spec 100 5 1 12 (by norm_num) (by norm_num)
    (by norm_num) (by norm_num [frequency_values])
  exact ⟨h.1, h.2.1, h.2.2 2 (by norm_num)⟩

/-- C10: when every ledger amount is strictly positive, the savings rate
is at most 100; it equals `(1 - totalExpenses / totalIncome) * 100` when
the total income is positive and 0 otherwise, and the total expenses are
non-negative. -/
theorem budget_saving_rate_bounded (income_items expense_items : List (String × ℚ))
    (hinc : ∀ p ∈ income_items, 0 < p.2) (hexp : ∀ p ∈ expense_items, 0 < p.2) :
    (budget_tracker income_items expense_items).saving_rate ≤ 100 ∧
    (0 < (income_items.map Prod.snd).sum →
      (budget_tracker income_items expense_items).saving_rate =
        (1 - (expense_items.map Prod.snd).sum / (income_items.map Prod.snd).sum) *
          100) ∧
    (¬ 0 < (income_items.map Prod.snd).sum →
      (budget_tracker income_items expense_items).saving_rate = 0) ∧
    0 ≤ (budget_tracker income_items expense_items).total_expenses := by
  have hte : 0 ≤ (expense_items.map Prod.snd).sum := by
    apply List.sum_nonneg
    intro x hx
    rcases List.mem_map.mp hx with ⟨p, hp, rfl⟩
    exact (hexp p hp).le
  have hrate : ∀ hti : 0 < (income_items.map Prod.snd).sum,
      (budget_tracker income_items expense_items).saving_rate =
        (1 - (expense_items.map Prod.snd).sum / (income_items.map Prod.snd).sum) *
          100 := by
    intro hti
    have hne : (income_items.map Prod.snd).sum ≠ 0 := ne_of_gt hti
    simp only [budget_tracker, if_pos hti]
    field_simp
  refine ⟨?_, hrate, ?_, hte⟩
  · by_cases hti : 0 < (income_items.map Prod.snd).sum
    · rw [hrate hti]
      have h1 : 0 ≤ (expense_items.map Prod.snd).sum / (income_items.map Prod.snd).sum :=
        div_nonneg hte hti.le
      linarith
    · simp [budget_tracker, hti]
  · intro hti
    simp [budget_tracker, hti]

/-- Witness for `budget_saving_rate_bounded` at one income item (Salary
2000) and one expense item (Rent 1000). -/
theorem budget_saving_rate_bounded_witness :
    (budget_tracker [("Salary", 2000)] [("Rent", 1000)]).saving_rate ≤ 100 ∧
    (budget_tracker [("Salary", 2000)] [("Rent", 1000)]).saving_rate =
      (1 - (([(("Rent", 1000) : String × ℚ)]).map Prod.snd).sum /
        (([(("Salary", 2000) : String × ℚ)]).map Prod.snd).sum) * 100 := by
  have h := budget_saving_rate_bounded [("Salary", 2000)] [("Rent", 1000)]
    (by norm_num) (by norm_num)
  exact ⟨h.1, h.2.1 (by norm_num)⟩

/-- Counterexample to C2 as stated: at goal 1, current savings 0, one
year, and an annual return of -2400 percent, the monthly return is -2, the
growth factor is `(1 + (-2)) ^ 12 = 1`, so the annuity factor is exactly
zero and the savings goal calculator fails with the degenerate-parameters
error instead of completing with a numeric result. -/
theorem savings_goal_degenerate_return :
    savings_goal_calculator 1 0 1 (-2400) =
      Except.error FinError.degenerateParameters := by
  norm_num [savings_goal_calculator]

/-- C2 amended: for every positive goal and term, any current savings and
any annual return other than the degenerate -2400 percent (whose monthly
return -2 makes the annuity factor vanish), the savings goal calculator
completes and returns a result without an error. -/
theorem savings_goal_total (goal_amount current_savings : ℚ) (time_years : ℕ)
    (annual_return : ℚ) (hg : 0 < goal_amount) (hy : 0 < time_years)
    (hret : annual_return ≠ -2400) :
    ∃ r, savings_goal_calculator goal_amount current_savings time_years annual_return =
      Except.ok r := by
  by_cases hmet : current_savings ≥ goal_amount
  · exact ⟨⟨true, 0, 0, 0⟩, by simp [savings_goal_calculator, hmet]⟩
  by_cases hmr : annual_return / 100 / 12 = 0
  · have hm : time_years * 12 ≠ 0 := by omega
    refine ⟨⟨false, (goal_amount - current_savings) / ((time_years * 12 : ℕ) : ℚ),
        (goal_amount - current_savings) / ((time_years * 12 : ℕ) : ℚ) *
          ((time_years * 12 : ℕ) : ℚ),
        goal_amount - current_savings -
          (goal_amount - current_savings) / ((time_years * 12 : ℕ) : ℚ) *
            ((time_years * 12 : ℕ) : ℚ)⟩, ?_⟩
    simp [savings_goal_calculator, hmet, hmr, hm]
  by_cases hrem : goal_amount -
      current_savings * (1 + annual_return / 100 / 12) ^ (time_years * 12) ≤ 0
  · exact ⟨⟨false, 0, 0, goal_amount - current_savings⟩,
      by simp [savings_goal_calculator, hmet, hmr, hrem]⟩
  have ham : ((1 + annual_return / 100 / 12) ^ (time_years * 12) - 1) /
      (annual_return / 100 / 12) ≠ 0 := by
    intro h0
    rcases div_eq_zero_iff.mp h0 with h1 | h1
    · have hm : time_years * 12 ≠ 0 := by omega
      have hpow : (1 + annual_return / 100 / 12) ^ (time_years * 12) = 1 := by
        linarith
      rcases (pow_eq_one_iff_of_ne_zero hm).mp hpow with h2 | ⟨h2, _⟩
      · exact hmr (by linarith)
      · have h3 : annual_return / 100 / 12 = -2 := by linarith
        have h4 : annual_return = -2400 := by linarith
        exact hret h4
    · exact hmr h1
  refine ⟨⟨false,
      (goal_amount -
          current_savings * (1 + annual_return / 100 / 12) ^ (time_years * 12)) /
        (((1 + annual_return / 100 / 12) ^ (time_years * 12) - 1) /
          (annual_return / 100 / 12)),
      (goal_amount -
          current_savings * (1 + annual_return / 100 / 12) ^ (time_years * 12)) /
        (((1 + annual_return / 100 / 12) ^ (time_years * 12) - 1) /
          (annual_return / 100 / 12)) * ((time_years * 12 : ℕ) : ℚ),
      goal_amount - current_savings -
        (goal_amount -
            current_savings * (1 + annual_return / 100 / 12) ^ (time_years * 12)) /
          (((1 + annual_return / 100 / 12) ^ (time_years * 12) - 1) /
            (annual_return / 100 / 12)) * ((time_years * 12 : ℕ) : ℚ)⟩, ?_⟩
  simp [savings_goal_calculator, hmet, hmr, hrem, ham]

/-- Witness for `savings_goal_total` at goal 1, no current savings, one
year, 5 percent annual return. -/
theorem savings_goal_total_witness :
    ∃ r, savings_goal_calculator 1 0 1 5 = Except.ok r :=
  savings_goal_total 1 0 1 5 (by norm_num) (by norm_num) (by norm_num)
